import Mathlib

/-!
Verification of the krok-mvp backend2 persistence layer: entity model
(User, Flow), flow CRUD operations, flow API endpoints, and the startup
bootstrap procedure (`init_database`), shallowly embedded from the
Python source under `src/backend2/`.

The relational store is a `Store`: the Users table, the Flows table
(lists in insertion order, which is the store's stable default order),
and the autoincrement counters for the surrogate integer ids.
Timestamps are modelled as natural numbers; each operation that may
stamp a row takes the current time `now` as an explicit argument.
The random hex digest `uuid.uuid4().hex` used for flow-id generation
is passed in as an explicit list of characters.
-/

namespace Krok

/-- A row of the `users` table (`app/models/user.py` via `app/schemas/user.py`):
surrogate `id`, unique `username`, optional `email`, `is_active`,
`created_at` set at insertion, `updated_at` null until the first update. -/
structure User where
  id : Nat
  username : String
  email : Option String
  is_active : Bool
  created_at : Nat
  updated_at : Option Nat
deriving Repr, DecidableEq

/-- A row of the `flows` table (`app/models/flow.py`): surrogate `id`,
externally visible unique `flow_id`, required `name`, optional
`description`, owning `user_id`, `created_at` set at insertion via the
server default, `updated_at` null until the first update (`onupdate`). -/
structure Flow where
  id : Nat
  flow_id : String
  name : String
  description : Option String
  user_id : Nat
  created_at : Nat
  updated_at : Option Nat
deriving Repr, DecidableEq

/-- The relational store: both tables in insertion order plus the
autoincrement counters handing out the next surrogate ids. -/
structure Store where
  users : List User
  flows : List Flow
  nextUserId : Nat
  nextFlowId : Nat
deriving Repr, DecidableEq

/-- Payload of `FlowCreate` (`app/schemas/flow.py`): the caller supplies
`flow_id`, `name`, optional `description` and the owning `user_id`. -/
structure FlowCreate where
  flow_id : String
  name : String
  description : Option String
  user_id : Nat
deriving Repr, DecidableEq

/-- Modelled from the spec: `app/schemas/flow.py` is not under `src/`.
Per the spec a partial-update payload is "a mapping of only the fields
the caller intends to change": each field carries `none` when the caller
left it unset, and `some v` when the caller explicitly set it to `v`
(for `description`, whose stored value is itself optional, the set value
is again an option). `dict(exclude_unset=True)` in `update_flow` keeps
exactly the set fields. -/
structure FlowUpdate where
  name : Option String
  description : Option (Option String)
deriving Repr, DecidableEq

/-- `crud/flow.py get_flow`: first row whose `flow_id` matches. -/
def get_flow (db : Store) (flow_id : String) : Option Flow :=
  db.flows.find? (fun f => f.flow_id == flow_id)

/-- `crud/flow.py get_all_flows`: offset/limit pagination over the flows
table in store order. -/
def get_all_flows (db : Store) (skip : Nat) (lim : Nat) : List Flow :=
  (db.flows.drop skip).take lim

/-- `get_all_flows` with its Python default arguments `skip=0, limit=100`. -/
def get_all_flows_default (db : Store) : List Flow :=
  get_all_flows db 0 100

/-- `crud/flow.py get_flows_by_user`: flows owned by `user_id`, paginated. -/
def get_flows_by_user (db : Store) (user_id : Nat) (skip : Nat) (lim : Nat) : List Flow :=
  ((db.flows.filter (fun f => f.user_id == user_id)).drop skip).take lim

/-- `crud/flow.py create_flow`: build the row from the payload, insert it
(the store assigns the next surrogate id and stamps `created_at`;
`updated_at` starts null), return it together with the new store. -/
def create_flow (db : Store) (flow : FlowCreate) (now : Nat) : Flow × Store :=
  let db_flow : Flow :=
    { id := db.nextFlowId
      flow_id := flow.flow_id
      name := flow.name
      description := flow.description
      user_id := flow.user_id
      created_at := now
      updated_at := none }
  (db_flow, { db with flows := db.flows ++ [db_flow], nextFlowId := db.nextFlowId + 1 })

/-- The `setattr` loop of `update_flow`: overwrite exactly the fields the
payload has set, leave every other field of the row as it was. -/
def applyFlowUpdate (f : Flow) (u : FlowUpdate) : Flow :=
  let f1 := match u.name with
    | some n => { f with name := n }
    | none => f
  match u.description with
    | some d => { f1 with description := d }
    | none => f1

/-- Replace the first row whose `flow_id` matches (the ORM mutates in
place the object `get_flow` found). -/
def replaceFlow (l : List Flow) (fid : String) (f : Flow) : List Flow :=
  match l with
  | [] => []
  | g :: gs => if g.flow_id == fid then f :: gs else g :: replaceFlow gs fid f

/-- Remove the first row whose `flow_id` matches. -/
def removeFlow (l : List Flow) (fid : String) : List Flow :=
  match l with
  | [] => []
  | g :: gs => if g.flow_id == fid then gs else g :: removeFlow gs fid

/-- `crud/flow.py update_flow`: look the row up by `flow_id`; if absent
return absence and leave the store untouched; if present apply exactly
the set fields, and commit. The flush compares each attribute's new
value to its committed value and emits an UPDATE only on a net change,
so the `onupdate` stamp on `updated_at` fires exactly when the applied
assignments changed the row; a payload that is empty or only re-sets
fields to their current values leaves the row, `updated_at` included,
as it was. Returns the (possibly) updated row and the new store. -/
def update_flow (db : Store) (flow_id : String) (u : FlowUpdate) (now : Nat) :
    Option Flow × Store :=
  match get_flow db flow_id with
  | none => (none, db)
  | some f =>
    let f1 := applyFlowUpdate f u
    let f2 := if f1 = f then f1 else { f1 with updated_at := some now }
    (some f2, { db with flows := replaceFlow db.flows flow_id f2 })

/-- `crud/flow.py delete_flow`: remove the row found by `flow_id` and
report `true`; report `false` (and leave the store untouched) when no
such row exists. -/
def delete_flow (db : Store) (flow_id : String) : Bool × Store :=
  match get_flow db flow_id with
  | some _ => (true, { db with flows := removeFlow db.flows flow_id })
  | none => (false, db)

/-- The generated external identifier: the literal prefix followed by the
first 8 characters of the random hex digest (`f"flow_{uuid.uuid4().hex[:8]}"`). -/
def genFlowId (hexDigest : List Char) : String :=
  "flow_" ++ String.mk (hexDigest.take 8)

/-- `crud/flow.py create_default_flow_for_user`: generate a fresh
`flow_id` from the random digest, fill in the fixed name and description
strings, and delegate to `create_flow`. -/
def create_default_flow_for_user (db : Store) (user_id : Nat)
    (hexDigest : List Char) (now : Nat) : Flow × Store :=
  create_flow db
    { flow_id := genFlowId hexDigest
      name := "Мой первый поток"
      description := some "Автоматически созданный поток"
      user_id := user_id } now

/-- Faults the transport adapter reports to callers. -/
inductive ApiError where
  | Conflict
  | NotFound
deriving Repr, DecidableEq

/-- `api/endpoints/flows.py create_flow`: look-before-write pre-check —
if a row with this `flow_id` already exists, reject with Conflict (HTTP
400) and leave the store untouched; otherwise delegate to the CRUD
`create_flow`. -/
def endpoint_create_flow (db : Store) (flow : FlowCreate) (now : Nat) :
    Except ApiError Flow × Store :=
  match get_flow db flow.flow_id with
  | some _ => (Except.error ApiError.Conflict, db)
  | none =>
    let res := create_flow db flow now
    (Except.ok res.1, res.2)

/-- `api/endpoints/flows.py get_flows`: `user_id: int = None` and the
dispatch is `if user_id:` — Python truthiness, so both an omitted
`user_id` (None) and an explicit `user_id=0` fall through to
`get_all_flows`. -/
def endpoint_get_flows (db : Store) (user_id : Option Nat) (skip : Nat) (lim : Nat) :
    List Flow :=
  if (match user_id with | none => false | some n => n != 0) then
    get_flows_by_user db (user_id.getD 0) skip lim
  else
    get_all_flows db skip lim

/-- Modelled from the spec: `app/schemas/user.py UserUpdate` is under
`src/` but `app/crud/user.py` is not; per the spec, `update_user` has
partial-update-by-presence semantics identical to `update_flow`, so the
payload carries one optional slot per updatable field (`username`,
`email`, `is_active`), `none` meaning unset. -/
structure UserUpdate where
  username : Option String
  email : Option (Option String)
  is_active : Option Bool
deriving Repr, DecidableEq

/-- Payload of `UserCreate` (`app/schemas/user.py`). -/
structure UserCreate where
  username : String
  email : Option String
  is_active : Bool
deriving Repr, DecidableEq

/-- Modelled from the spec: `app/crud/user.py create_user` is not under
`src/`. Per the spec it inserts a new User with a fresh id and
`created_at`, null `updated_at`, and returns it. -/
def create_user (db : Store) (u : UserCreate) (now : Nat) : User × Store :=
  let db_user : User :=
    { id := db.nextUserId
      username := u.username
      email := u.email
      is_active := u.is_active
      created_at := now
      updated_at := none }
  (db_user, { db with users := db.users ++ [db_user], nextUserId := db.nextUserId + 1 })

/-- The `setattr` loop of `update_user` over the set fields of the payload. -/
def applyUserUpdate (us : User) (u : UserUpdate) : User :=
  let u1 := match u.username with
    | some n => { us with username := n }
    | none => us
  let u2 := match u.email with
    | some e => { u1 with email := e }
    | none => u1
  match u.is_active with
    | some a => { u2 with is_active := a }
    | none => u2

/-- Replace the first user row with the given id. -/
def replaceUser (l : List User) (uid : Nat) (us : User) : List User :=
  match l with
  | [] => []
  | g :: gs => if g.id == uid then us :: gs else g :: replaceUser gs uid us

/-- Modelled from the spec: `app/crud/user.py update_user` is not under
`src/`. Per the spec it applies only the explicitly present fields,
leaves unset fields untouched, stamps `updated_at`, and returns the
updated User, or absence when the id does not exist; the User
timestamps carry the "same semantics" as the Flow ones, so the
`onupdate` stamp fires exactly when the flush emits an UPDATE, i.e. on
a net change to the row. -/
def update_user (db : Store) (uid : Nat) (u : UserUpdate) (now : Nat) :
    Option User × Store :=
  match db.users.find? (fun us => us.id == uid) with
  | none => (none, db)
  | some us =>
    let u1 := applyUserUpdate us u
    let u2 := if u1 = us then u1 else { u1 with updated_at := some now }
    (some u2, { db with users := replaceUser db.users uid u2 })

/-- `init_db.py init_database`, the startup bootstrap (the `lifespan`
hook of `main.py` runs the same algorithm through the user CRUD): look
the "root" User up by username; if absent, insert it (fixed username,
email, active) and insert one default Flow owned by it; if present,
insert one default Flow only when it owns none, otherwise change
nothing. `hexDigest` is the random digest consumed when a flow is
generated, `now` the clock. -/
def init_database (db : Store) (hexDigest : List Char) (now : Nat) : Store :=
  match db.users.find? (fun u => u.username == "root") with
  | none =>
    let root : User :=
      { id := db.nextUserId
        username := "root"
        email := some "root@krok-mvp.local"
        is_active := true
        created_at := now
        updated_at := none }
    let db1 : Store := { db with users := db.users ++ [root], nextUserId := db.nextUserId + 1 }
    (create_flow db1
      { flow_id := genFlowId hexDigest
        name := "Тестовый поток"
        description := some "Автоматически созданный поток для тестирования"
        user_id := root.id } now).2
  | some root =>
    if (db.flows.filter (fun f => f.user_id == root.id)).isEmpty then
      (create_flow db
        { flow_id := genFlowId hexDigest
          name := "Тестовый поток"
          description := some "Автоматически созданный поток для тестирования"
          user_id := root.id } now).2
    else
      db

/-- The root User row the bootstrap inserts when none exists, as built
inside `init_database`. -/
def mkRootUser (db : Store) (now : Nat) : User :=
  { id := db.nextUserId
    username := "root"
    email := some "root@krok-mvp.local"
    is_active := true
    created_at := now
    updated_at := none }

/-- Number of users named "root" in the store. -/
def rootCount (db : Store) : Nat :=
  (db.users.filter (fun u => u.username == "root")).length

/-- Number of flows owned by the user with the given id. -/
def flowCountOf (db : Store) (uid : Nat) : Nat :=
  (db.flows.filter (fun f => f.user_id == uid)).length

/-- Lowercase hexadecimal digit, the alphabet of `uuid.uuid4().hex`. -/
def isHexChar (c : Char) : Bool :=
  c.isDigit || ('a' ≤ c && c ≤ 'f')

/-- Concrete flow fixture. -/
def wF1 : Flow :=
  { id := 1, flow_id := "f1", name := "alpha", description := none,
    user_id := 7, created_at := 0, updated_at := none }

/-- Concrete flow fixture. -/
def wF2 : Flow :=
  { id := 2, flow_id := "f2", name := "beta", description := some "d",
    user_id := 7, created_at := 0, updated_at := none }

/-- Concrete flow fixture. -/
def wF3 : Flow :=
  { id := 3, flow_id := "f3", name := "gamma", description := none,
    user_id := 8, created_at := 1, updated_at := none }

/-- Concrete flow fixture. -/
def wF4 : Flow :=
  { id := 4, flow_id := "f4", name := "delta", description := none,
    user_id := 8, created_at := 1, updated_at := none }

/-- Concrete flow fixture. -/
def wF5 : Flow :=
  { id := 5, flow_id := "f5", name := "epsilon", description := none,
    user_id := 9, created_at := 2, updated_at := none }

/-- Concrete one-flow store fixture. -/
def wDb : Store :=
  { users := [], flows := [wF1], nextUserId := 1, nextFlowId := 2 }

/-- Concrete five-flow store fixture with pairwise distinct ids. -/
def wDb5 : Store :=
  { users := [], flows := [wF1, wF2, wF3, wF4, wF5], nextUserId := 1, nextFlowId := 6 }

/-- Concrete "root" user fixture. -/
def wRoot : User :=
  { id := 7, username := "root", email := none, is_active := true,
    created_at := 0, updated_at := none }

/-- Concrete store fixture holding a "root" user with no flows. -/
def wDbRoot : Store :=
  { users := [wRoot], flows := [], nextUserId := 8, nextFlowId := 1 }

/-- Concrete empty store fixture. -/
def wEmpty : Store :=
  { users := [], flows := [], nextUserId := 1, nextFlowId := 1 }

/-- Concrete 32-character hex digest fixture. -/
def wHex : List Char :=
  "0123456789abcdef0123456789abcdef".data

/-- Second concrete hex digest fixture. -/
def wHex2 : List Char :=
  "ffeeddccbbaa99887766554433221100".data

/-- Concrete creation payload fixture reusing an already-stored flow_id. -/
def wFC : FlowCreate :=
  { flow_id := "f1", name := "dup", description := none, user_id := 7 }

/-- Concrete partial-update payload fixture setting only the name. -/
def wU : FlowUpdate :=
  { name := some "m", description := none }

/-- The stored fixture flow after the name-only update at time 7. -/
def wF1m : Flow :=
  { id := 1, flow_id := "f1", name := "m", description := none,
    user_id := 7, created_at := 0, updated_at := some 7 }

/-- Concrete user-creation payload fixture. -/
def wUC : UserCreate :=
  { username := "alice", email := none, is_active := true }

/-- Concrete user partial-update payload fixture setting only the email. -/
def wUU : UserUpdate :=
  { username := none, email := some (some "a@b"), is_active := none }

/-! Helper lemmas about the row-replacement and row-removal primitives. -/

theorem replaceFlow_self {l : List Flow} {fid : String} {f : Flow}
    (h : l.find? (fun g => g.flow_id == fid) = some f) : replaceFlow l fid f = l := by
  induction l with
  | nil => simp at h
  | cons g gs ih =>
    cases hg : (g.flow_id == fid) with
    | true =>
      rw [List.find?_cons, hg] at h
      injection h with h
      subst h
      simp [replaceFlow, hg]
    | false =>
      rw [List.find?_cons, hg] at h
      simp [replaceFlow, hg, ih h]

theorem replaceFlow_length (l : List Flow) (fid : String) (f : Flow) :
    (replaceFlow l fid f).length = l.length := by
  induction l with
  | nil => rfl
  | cons g gs ih =>
    by_cases hg : (g.flow_id == fid) = true
    · simp [replaceFlow, hg]
    · simp [replaceFlow, hg, ih]

theorem mem_replaceFlow_of_ne {l : List Flow} {fid : String} {f g : Flow}
    (hg : g ∈ l) (hne : (g.flow_id == fid) = false) : g ∈ replaceFlow l fid f := by
  induction l with
  | nil => cases hg
  | cons x xs ih =>
    by_cases hx : (x.flow_id == fid) = true
    · rcases List.mem_cons.mp hg with rfl | hmem
      · rw [hx] at hne; cases hne
      · simp [replaceFlow, hx, hmem]
    · rcases List.mem_cons.mp hg with rfl | hmem
      · simp [replaceFlow, hx]
      · simp [replaceFlow, hx, ih hmem]

theorem removeFlow_length {l : List Flow} {fid : String} {f : Flow}
    (h : l.find? (fun g => g.flow_id == fid) = some f) :
    (removeFlow l fid).length + 1 = l.length := by
  induction l with
  | nil => simp at h
  | cons g gs ih =>
    cases hg : (g.flow_id == fid) with
    | true => simp [removeFlow, hg]
    | false =>
      rw [List.find?_cons, hg] at h
      simp [removeFlow, hg, ih h]

theorem mem_of_mem_removeFlow {l : List Flow} {fid : String} {g : Flow}
    (hmem : g ∈ removeFlow l fid) : g ∈ l := by
  induction l with
  | nil => cases hmem
  | cons x xs ih =>
    by_cases hx : (x.flow_id == fid) = true
    · simp only [removeFlow, hx, if_true] at hmem
      exact List.mem_cons_of_mem _ hmem
    · simp only [removeFlow, hx, if_false, Bool.false_eq_true] at hmem
      rcases List.mem_cons.mp hmem with rfl | hmem
      · exact List.mem_cons_self _ _
      · exact List.mem_cons_of_mem _ (ih hmem)

theorem find?_removeFlow_of_nodup {l : List Flow} {fid : String}
    (hnd : (l.map (fun g => g.flow_id)).Nodup) :
    (removeFlow l fid).find? (fun g => g.flow_id == fid) = none := by
  induction l with
  | nil => rfl
  | cons x xs ih =>
    rw [List.map_cons, List.nodup_cons] at hnd
    cases hx : (x.flow_id == fid) with
    | true =>
      simp only [removeFlow, hx, if_true]
      rw [List.find?_eq_none]
      intro g hg hgf
      apply hnd.1
      have hxg : x.flow_id = g.flow_id := by
        rw [beq_iff_eq.mp hx, ← beq_iff_eq.mp hgf]
      rw [hxg]
      exact List.mem_map_of_mem _ hg
    | false =>
      simp only [removeFlow, hx, Bool.false_eq_true, if_false]
      rw [List.find?_cons, hx]
      exact ih hnd.2

theorem applyFlowUpdate_fields (f : Flow) (u : FlowUpdate) :
    (applyFlowUpdate f u).id = f.id ∧
    (applyFlowUpdate f u).flow_id = f.flow_id ∧
    (applyFlowUpdate f u).user_id = f.user_id ∧
    (applyFlowUpdate f u).created_at = f.created_at ∧
    (applyFlowUpdate f u).updated_at = f.updated_at ∧
    (applyFlowUpdate f u).name = (match u.name with | some n => n | none => f.name) ∧
    (applyFlowUpdate f u).description =
      (match u.description with | some d => d | none => f.description) := by
  obtain ⟨un, ud⟩ := u
  cases un <;> cases ud <;> exact ⟨rfl, rfl, rfl, rfl, rfl, rfl, rfl⟩

theorem applyUserUpdate_fields (us : User) (u : UserUpdate) :
    (applyUserUpdate us u).id = us.id ∧
    (applyUserUpdate us u).created_at = us.created_at ∧
    (applyUserUpdate us u).updated_at = us.updated_at := by
  obtain ⟨a, b, c⟩ := u
  cases a <;> cases b <;> cases c <;> exact ⟨rfl, rfl, rfl⟩

theorem isEmpty_append_singleton (l : List Flow) (x : Flow) :
    (l ++ [x]).isEmpty = false := by
  cases l <;> rfl

/-! Claim theorems. -/

/-- C5: `delete_flow` returns whether a deletion occurred: on a present
flow_id it removes that Flow (one fewer row, every remaining row was
already stored, and under the unique-flow_id store invariant no row with
that flow_id remains) and returns true; on an absent flow_id it returns
false without a fault and without modifying the store. -/
theorem delete_flow_reports_deletion (db : Store) (fid : String) :
    (get_flow db fid = none → delete_flow db fid = (false, db)) ∧
    (∀ f, get_flow db fid = some f →
      (delete_flow db fid).1 = true ∧
      (delete_flow db fid).2.flows.length + 1 = db.flows.length ∧
      (delete_flow db fid).2.users = db.users ∧
      (∀ g, g ∈ (delete_flow db fid).2.flows → g ∈ db.flows) ∧
      ((db.flows.map (fun g => g.flow_id)).Nodup →
        get_flow (delete_flow db fid).2 fid = none)) := by
  constructor
  · intro h
    simp only [delete_flow, h]
  · intro f h
    have hfind : db.flows.find? (fun g => g.flow_id == fid) = some f := h
    refine ⟨?_, ?_, ?_, ?_, ?_⟩
    · simp only [delete_flow, h]
    · have hlen := removeFlow_length hfind
      simp only [delete_flow, h]
      exact hlen
    · simp only [delete_flow, h]
    · intro g hg
      simp only [delete_flow, h] at hg
      exact mem_of_mem_removeFlow hg
    · intro hnd
      simp only [delete_flow, h]
      exact find?_removeFlow_of_nodup hnd

/-- Witness for C5 at a concrete store: deleting an absent flow_id
reports false and leaves the store intact; deleting a present one
reports true and the row is gone. -/
theorem delete_flow_reports_deletion_witness :
    delete_flow wDb "zz" = (false, wDb) ∧
    (delete_flow wDb "f1").1 = true ∧
    get_flow (delete_flow wDb "f1").2 "f1" = none :=
  ⟨(delete_flow_reports_deletion wDb "zz").1 (by decide),
   ((delete_flow_reports_deletion wDb "f1").2 wF1 (by decide)).1,
   ((delete_flow_reports_deletion wDb "f1").2 wF1 (by decide)).2.2.2.2 (by decide)⟩

/-- C10: the list-flows endpoint dispatches on Python truthiness of
`user_id`, so an explicit `user_id = 0` behaves exactly like an omitted
`user_id` and returns all flows paginated — not the flows of a user
with id 0, as the concrete disagreement with `get_flows_by_user` at a
store whose only flow is owned by user 7 shows. -/
theorem get_flows_zero_user_id (db : Store) (skip lim : Nat) :
    endpoint_get_flows db (some 0) skip lim = get_all_flows db skip lim ∧
    endpoint_get_flows db none skip lim = get_all_flows db skip lim ∧
    endpoint_get_flows wDb (some 0) 0 100 ≠ get_flows_by_user wDb 0 0 100 :=
  ⟨rfl, rfl, by decide⟩

/-- C4: the create-flow endpoint's look-before-write pre-check rejects a
second creation under an already-stored flow_id with Conflict before any
insert, returning the store unchanged — the existing Flow is unaltered. -/
theorem create_flow_duplicate_conflict (db : Store) (fc : FlowCreate) (now : Nat) (f : Flow)
    (h : get_flow db fc.flow_id = some f) :
    endpoint_create_flow db fc now = (Except.error ApiError.Conflict, db) := by
  simp only [endpoint_create_flow, h]

/-- Witness for C4: re-creating flow_id "f1" over a store already
holding it is rejected with Conflict and the store is returned intact. -/
theorem create_flow_duplicate_conflict_witness :
    endpoint_create_flow wDb wFC 9 = (Except.error ApiError.Conflict, wDb) :=
  create_flow_duplicate_conflict wDb wFC 9 wF1 (by decide)

/-- C9: an update whose payload has no field set is a no-op on a stored
flow: `update_flow` returns the stored row with every field unchanged —
`updated_at` included, since no UPDATE is emitted — and the store
itself is unchanged. -/
theorem update_flow_empty_payload_noop (db : Store) (fid : String) (f : Flow) (now : Nat)
    (h : get_flow db fid = some f) :
    update_flow db fid { name := none, description := none } now = (some f, db) := by
  have hfind : db.flows.find? (fun g => g.flow_id == fid) = some f := h
  have happ : applyFlowUpdate f { name := none, description := none } = f := rfl
  simp only [update_flow, h, happ, if_pos, ite_self, eq_self_iff_true, if_true]
  rw [replaceFlow_self hfind]

/-- Witness for C9 at a concrete one-flow store. -/
theorem update_flow_empty_payload_noop_witness :
    update_flow wDb "f1" { name := none, description := none } 5 = (some wF1, wDb) :=
  update_flow_empty_payload_noop wDb "f1" wF1 5 (by decide)

/-- C6: `get_all_flows` paginates by offset and limit, with Python
defaults skip=0, limit=100; on a store holding 5 flows in its stable
store order, the page (skip=0, limit=2) is exactly the first two flows,
the page (skip=2, limit=2) is exactly the next two, together they are
the first four flows in order, and under the distinct-surrogate-id
store invariant the two pages are disjoint. -/
theorem get_all_flows_pagination (db : Store) (h5 : db.flows.length = 5) :
    get_all_flows_default db = get_all_flows db 0 100 ∧
    (get_all_flows db 0 2).length = 2 ∧
    (get_all_flows db 2 2).length = 2 ∧
    get_all_flows db 0 2 ++ get_all_flows db 2 2 = db.flows.take 4 ∧
    ((db.flows.map (fun g => g.id)).Nodup →
      ∀ g, g ∈ get_all_flows db 0 2 → g ∉ get_all_flows db 2 2) := by
  have happ : get_all_flows db 0 2 ++ get_all_flows db 2 2 = db.flows.take 4 := by
    show (db.flows.drop 0).take 2 ++ (db.flows.drop 2).take 2 = db.flows.take 4
    have h4 : (4 : Nat) = 2 + 2 := rfl
    rw [List.drop_zero, h4, List.take_add]
  refine ⟨rfl, ?_, ?_, happ, ?_⟩
  · show ((db.flows.drop 0).take 2).length = 2
    simp [List.length_take, List.length_drop, h5]
  · show ((db.flows.drop 2).take 2).length = 2
    simp [List.length_take, List.length_drop, h5]
  · intro hnd
    have hnodup : db.flows.Nodup := List.Nodup.of_map _ hnd
    have htake : (db.flows.take 4).Nodup := (List.take_sublist 4 db.flows).nodup hnodup
    rw [← happ] at htake
    exact (List.nodup_append.mp htake).2.2

/-- Witness for C6 at a concrete five-flow store with distinct ids:
both pages have two flows and the first flow of page one is not on
page two. -/
theorem get_all_flows_pagination_witness :
    (get_all_flows wDb5 0 2).length = 2 ∧
    (get_all_flows wDb5 2 2).length = 2 ∧
    wF1 ∉ get_all_flows wDb5 2 2 :=
  ⟨(get_all_flows_pagination wDb5 (by decide)).2.1,
   (get_all_flows_pagination wDb5 (by decide)).2.2.1,
   (get_all_flows_pagination wDb5 (by decide)).2.2.2.2 (by decide) wF1 (by decide)⟩

/-- C7: `create_default_flow_for_user` generates the external id as the
prefix "flow_" followed by exactly the first 8 characters of the random
hex digest — 8 hexadecimal characters when the digest is a 32-character
hex string — fills in the fixed name and description strings, and
delegates the insertion (unconditionally, with no collision re-check)
to `create_flow`, returning what `create_flow` returns. -/
theorem create_default_flow_generates_id (db : Store) (uid : Nat) (hexDigest : List Char)
    (now : Nat) (hlen : hexDigest.length = 32)
    (hhex : ∀ c ∈ hexDigest, isHexChar c = true) :
    (create_default_flow_for_user db uid hexDigest now).1.flow_id.data =
      "flow_".data ++ hexDigest.take 8 ∧
    (create_default_flow_for_user db uid hexDigest now).1.flow_id.data.take 5 =
      "flow_".data ∧
    ((create_default_flow_for_user db uid hexDigest now).1.flow_id.data.drop 5).length = 8 ∧
    (∀ c ∈ (create_default_flow_for_user db uid hexDigest now).1.flow_id.data.drop 5,
      isHexChar c = true) ∧
    (create_default_flow_for_user db uid hexDigest now).1.name = "Мой первый поток" ∧
    (create_default_flow_for_user db uid hexDigest now).1.description =
      some "Автоматически созданный поток" ∧
    (create_default_flow_for_user db uid hexDigest now).1.user_id = uid ∧
    create_default_flow_for_user db uid hexDigest now =
      create_flow db
        { flow_id := genFlowId hexDigest, name := "Мой первый поток",
          description := some "Автоматически созданный поток", user_id := uid } now ∧
    (create_default_flow_for_user db uid hexDigest now).2.flows =
      db.flows ++ [(create_default_flow_for_user db uid hexDigest now).1] := by
  have hdata : (create_default_flow_for_user db uid hexDigest now).1.flow_id.data =
      "flow_".data ++ hexDigest.take 8 := by
    show (genFlowId hexDigest).data = "flow_".data ++ hexDigest.take 8
    rw [genFlowId, String.data_append]
  have hd5 : ("flow_").data = ['f', 'l', 'o', 'w', '_'] := rfl
  refine ⟨hdata, ?_, ?_, ?_, rfl, rfl, rfl, rfl, rfl⟩
  · rw [hdata, hd5]
    exact List.take_left' rfl
  · have hdl : List.drop 5 (['f', 'l', 'o', 'w', '_'] ++ hexDigest.take 8) =
        hexDigest.take 8 := List.drop_left' rfl
    rw [hdata, hd5, hdl]
    simp [List.length_take, hlen]
  · intro c hc
    have hdl : List.drop 5 (['f', 'l', 'o', 'w', '_'] ++ hexDigest.take 8) =
        hexDigest.take 8 := List.drop_left' rfl
    rw [hdata, hd5, hdl] at hc
    exact hhex c (List.mem_of_mem_take hc)

/-- Witness for C7 at a concrete 32-character hex digest. -/
theorem create_default_flow_generates_id_witness :
    (create_default_flow_for_user wEmpty 7 wHex 3).1.flow_id.data =
      "flow_".data ++ wHex.take 8 ∧
    (create_default_flow_for_user wEmpty 7 wHex 3).1.name = "Мой первый поток" :=
  ⟨(create_default_flow_generates_id wEmpty 7 wHex 3 (by decide) (by decide)).1,
   (create_default_flow_generates_id wEmpty 7 wHex 3 (by decide) (by decide)).2.2.2.2.1⟩

/-- C3 counterexample: at a store holding flow "f1" (named "alpha",
null updated_at), an update whose payload has no field set — and
likewise one that only re-sets name to its current value "alpha" —
returns the flow with updated_at still null, because no UPDATE is
emitted and the onupdate stamp never fires: `update_flow` does not set
updated_at for every payload, refuting the claim as stated. -/
theorem update_flow_sets_updated_at_counterexample :
    get_flow wDb "f1" = some wF1 ∧
    (update_flow wDb "f1" { name := none, description := none } 5).1 = some wF1 ∧
    (update_flow wDb "f1" { name := some "alpha", description := none } 5).1 = some wF1 ∧
    wF1.updated_at = none := by
  decide

/-- C3 amended: for every existing flow_id, `update_flow` assigns only
the fields explicitly present in the payload, leaves every unset field
of the Flow untouched, returns the updated Flow, and sets updated_at
exactly when the applied assignments produce a net change to the row —
a payload that is empty, or that only re-sets fields to their current
values, leaves the Flow (updated_at included) unchanged; for every
flow_id not present it returns absent and modifies nothing. The store
frame: users untouched, flow count unchanged, rows with another
flow_id untouched. -/
theorem update_flow_partial_update (db : Store) (fid : String) (u : FlowUpdate) (now : Nat) :
    (get_flow db fid = none → update_flow db fid u now = (none, db)) ∧
    (∀ f, get_flow db fid = some f →
      ∃ f2, (update_flow db fid u now).1 = some f2 ∧
        f2.id = f.id ∧
        f2.flow_id = f.flow_id ∧
        f2.user_id = f.user_id ∧
        f2.created_at = f.created_at ∧
        f2.name = (match u.name with | some n => n | none => f.name) ∧
        f2.description = (match u.description with | some d => d | none => f.description) ∧
        f2.updated_at = (if applyFlowUpdate f u = f then f.updated_at else some now) ∧
        (applyFlowUpdate f u = f → f2 = f) ∧
        (update_flow db fid u now).2.users = db.users ∧
        (update_flow db fid u now).2.flows.length = db.flows.length ∧
        (∀ g, g ∈ db.flows → (g.flow_id == fid) = false →
          g ∈ (update_flow db fid u now).2.flows)) := by
  constructor
  · intro h
    simp only [update_flow, h]
  · intro f h
    have hfields := applyFlowUpdate_fields f u
    by_cases hch : applyFlowUpdate f u = f
    · refine ⟨f, ?_, rfl, rfl, rfl, rfl, ?_, ?_, ?_, fun _ => rfl, ?_, ?_, ?_⟩
      · simp [update_flow, h, hch]
      · exact (congrArg Flow.name hch).symm.trans hfields.2.2.2.2.2.1
      · exact (congrArg Flow.description hch).symm.trans hfields.2.2.2.2.2.2
      · rw [if_pos hch]
      · simp only [update_flow, h]
      · have hlen := replaceFlow_length db.flows fid
          (if applyFlowUpdate f u = f then applyFlowUpdate f u
            else { applyFlowUpdate f u with updated_at := some now })
        simp only [update_flow, h]
        exact hlen
      · intro g hg hne
        simp only [update_flow, h]
        exact mem_replaceFlow_of_ne hg hne
    · refine ⟨{ applyFlowUpdate f u with updated_at := some now }, ?_, ?_, ?_, ?_, ?_, ?_, ?_,
        ?_, fun hc => absurd hc hch, ?_, ?_, ?_⟩
      · simp [update_flow, h, hch]
      · exact hfields.1
      · exact hfields.2.1
      · exact hfields.2.2.1
      · exact hfields.2.2.2.1
      · exact hfields.2.2.2.2.2.1
      · exact hfields.2.2.2.2.2.2
      · rw [if_neg hch]
      · simp only [update_flow, h]
      · have hlen := replaceFlow_length db.flows fid
          (if applyFlowUpdate f u = f then applyFlowUpdate f u
            else { applyFlowUpdate f u with updated_at := some now })
        simp only [update_flow, h]
        exact hlen
      · intro g hg hne
        simp only [update_flow, h]
        exact mem_replaceFlow_of_ne hg hne

/-- Witness for C3 (amended) at a concrete store: updating an absent
flow_id changes nothing, and a name-only update on "f1" that changes
the name returns a flow with the new name and updated_at stamped. -/
theorem update_flow_partial_update_witness :
    update_flow wDb "zz" wU 7 = (none, wDb) ∧
    (∃ f2, (update_flow wDb "f1" wU 7).1 = some f2 ∧
      f2.name = "m" ∧ f2.updated_at = some 7) := by
  refine ⟨(update_flow_partial_update wDb "zz" wU 7).1 (by decide), ?_⟩
  obtain ⟨f2, h1, _, _, _, _, hnm, _, hup, _, _, _, _⟩ :=
    (update_flow_partial_update wDb "f1" wU 7).2 wF1 (by decide)
  refine ⟨f2, h1, by simpa using hnm, ?_⟩
  rw [hup]
  decide

/-- C8: for both entities, created_at is stamped at creation and
updated_at starts null; every mutating update — one whose applied
assignments actually change the row, which is exactly when the flush
emits an UPDATE — stamps updated_at, a non-mutating update leaves
updated_at as it was, and no update ever changes created_at. -/
theorem timestamps_lifecycle (db : Store) (fc : FlowCreate) (uc : UserCreate)
    (fid : String) (fu : FlowUpdate) (uid : Nat) (uu : UserUpdate) (now t : Nat) :
    ((create_flow db fc now).1.created_at = now ∧
      (create_flow db fc now).1.updated_at = none) ∧
    ((create_user db uc now).1.created_at = now ∧
      (create_user db uc now).1.updated_at = none) ∧
    (∀ f f2, get_flow db fid = some f → (update_flow db fid fu t).1 = some f2 →
      f2.created_at = f.created_at ∧
      (applyFlowUpdate f fu ≠ f → f2.updated_at = some t) ∧
      (applyFlowUpdate f fu = f → f2.updated_at = f.updated_at)) ∧
    (∀ us u2, db.users.find? (fun x => x.id == uid) = some us →
      (update_user db uid uu t).1 = some u2 →
      u2.created_at = us.created_at ∧
      (applyUserUpdate us uu ≠ us → u2.updated_at = some t) ∧
      (applyUserUpdate us uu = us → u2.updated_at = us.updated_at)) := by
  refine ⟨⟨rfl, rfl⟩, ⟨rfl, rfl⟩, ?_, ?_⟩
  · intro f f2 h h2
    have hfields := applyFlowUpdate_fields f fu
    simp only [update_flow, h, Option.some.injEq] at h2
    subst h2
    refine ⟨?_, fun hne => ?_, fun hc => ?_⟩
    · by_cases hch : applyFlowUpdate f fu = f
      · rw [if_pos hch]
        exact hfields.2.2.2.1
      · rw [if_neg hch]
        exact hfields.2.2.2.1
    · rw [if_neg hne]
    · rw [if_pos hc]
      exact hfields.2.2.2.2.1
  · intro us u2 h h2
    have hfields := applyUserUpdate_fields us uu
    simp only [update_user, h, Option.some.injEq] at h2
    subst h2
    refine ⟨?_, fun hne => ?_, fun hc => ?_⟩
    · by_cases hch : applyUserUpdate us uu = us
      · rw [if_pos hch]
        exact hfields.2.1
      · rw [if_neg hch]
        exact hfields.2.1
    · rw [if_neg hne]
    · rw [if_pos hc]
      exact hfields.2.2

/-- Witness for C8 at concrete inputs: creation timestamps on a fresh
flow, and the name-changing update of "f1" keeping created_at while
stamping updated_at. -/
theorem timestamps_lifecycle_witness :
    (create_flow wDb wFC 3).1.created_at = 3 ∧
    (create_flow wDb wFC 3).1.updated_at = none ∧
    wF1m.created_at = wF1.created_at ∧
    wF1m.updated_at = some 7 := by
  have T := timestamps_lifecycle wDb wFC wUC "f1" wU 7 wUU 3 7
  exact ⟨T.1.1, T.1.2,
    (T.2.2.1 wF1 wF1m (by decide) (by decide)).1,
    (T.2.2.1 wF1 wF1m (by decide) (by decide)).2.1 (by decide)⟩

/-- C1: when the store already holds a User named "root" (the first
such row, as the bootstrap's lookup finds it), bootstrap creates
exactly one default Flow for it when it owns none and changes nothing
when it owns at least one, so its Flow count afterwards is
max(1, its prior count). -/
theorem bootstrap_existing_root (db : Store) (hexDigest : List Char) (now : Nat) (root : User)
    (h : db.users.find? (fun u => u.username == "root") = some root) :
    flowCountOf (init_database db hexDigest now) root.id = max 1 (flowCountOf db root.id) ∧
    (1 ≤ flowCountOf db root.id → init_database db hexDigest now = db) := by
  cases hemp : (db.flows.filter (fun f => f.user_id == root.id)).isEmpty with
  | true =>
    have h0 : flowCountOf db root.id = 0 := by
      unfold flowCountOf
      rw [List.isEmpty_iff.mp hemp]
      rfl
    constructor
    · simp only [init_database, h, hemp, if_true]
      unfold flowCountOf create_flow
      simp only [List.filter_append]
      rw [List.isEmpty_iff.mp hemp]
      simp [h0]
    · intro h1
      rw [h0] at h1
      omega
  | false =>
    have hpos : 1 ≤ flowCountOf db root.id := by
      unfold flowCountOf
      have hne := List.isEmpty_eq_false.mp hemp
      exact List.length_pos.mpr hne
    have hsame : init_database db hexDigest now = db := by
      simp only [init_database, h, hemp, Bool.false_eq_true, if_false]
    refine ⟨?_, fun _ => hsame⟩
    rw [hsame, Nat.max_eq_right hpos]

/-- Witness for C1: against a store holding a flowless "root" user,
bootstrap leaves it with exactly one flow; a second bootstrap run then
changes nothing. -/
theorem bootstrap_existing_root_witness :
    flowCountOf (init_database wDbRoot wHex 4) wRoot.id = 1 ∧
    init_database (init_database wDbRoot wHex 4) wHex2 9 = init_database wDbRoot wHex 4 := by
  constructor
  · have h := (bootstrap_existing_root wDbRoot wHex 4 wRoot (by decide)).1
    rw [h]
    decide
  · exact (bootstrap_existing_root (init_database wDbRoot wHex 4) wHex2 9 wRoot
      (by decide)).2 (by decide)

/-- After any bootstrap run the "root" lookup succeeds and the found
root user owns at least one flow, so a later run takes the do-nothing
branch. -/
theorem init_database_root_after (db : Store) (hexDigest : List Char) (now : Nat) :
    ∃ r, (init_database db hexDigest now).users.find? (fun u => u.username == "root") = some r ∧
      ((init_database db hexDigest now).flows.filter
        (fun f => f.user_id == r.id)).isEmpty = false := by
  cases hfind : db.users.find? (fun u => u.username == "root") with
  | none =>
    refine ⟨mkRootUser db now, ?_, ?_⟩
    · simp only [init_database, hfind, create_flow]
      rw [List.find?_append, hfind, Option.none_or]
      simp [List.find?_cons, mkRootUser]
    · simp only [init_database, hfind, create_flow, mkRootUser]
      rw [List.filter_append]
      simp only [List.filter_cons, List.filter_nil, beq_self_eq_true, if_true]
      exact isEmpty_append_singleton _ _
  | some root =>
    cases hemp : (db.flows.filter (fun f => f.user_id == root.id)).isEmpty with
    | true =>
      refine ⟨root, ?_, ?_⟩
      · simp only [init_database, hfind, hemp, if_true, create_flow]
      · simp only [init_database, hfind, hemp, if_true, create_flow]
        rw [List.filter_append]
        simp only [List.filter_cons, List.filter_nil, beq_self_eq_true, if_true]
        exact isEmpty_append_singleton _ _
    | false =>
      refine ⟨root, ?_, ?_⟩
      · simp only [init_database, hfind, hemp, Bool.false_eq_true, if_false]
      · simp only [init_database, hfind, hemp, Bool.false_eq_true, if_false]

/-- A bootstrap run against a store whose "root" lookup succeeds with a
flow-owning root changes nothing. -/
theorem init_database_noop (db : Store) (hexDigest : List Char) (now : Nat) (r : User)
    (hr : db.users.find? (fun u => u.username == "root") = some r)
    (hni : (db.flows.filter (fun f => f.user_id == r.id)).isEmpty = false) :
    init_database db hexDigest now = db := by
  simp only [init_database, hr, hni, Bool.false_eq_true, if_false]

/-- Running bootstrap a second time reproduces the first run's store
exactly. -/
theorem init_database_idem (db : Store) (h1 h2 : List Char) (n1 n2 : Nat) :
    init_database (init_database db h1 n1) h2 n2 = init_database db h1 n1 := by
  obtain ⟨r, hr, hni⟩ := init_database_root_after db h1 n1
  exact init_database_noop _ h2 n2 r hr hni

/-- The number of users named "root" after a bootstrap run is
max(1, the prior number): one is created exactly when none existed. -/
theorem rootCount_init_database (db : Store) (hexDigest : List Char) (now : Nat) :
    rootCount (init_database db hexDigest now) = max 1 (rootCount db) := by
  cases hfind : db.users.find? (fun u => u.username == "root") with
  | none =>
    have h0 : rootCount db = 0 := by
      unfold rootCount
      rw [List.filter_eq_nil_iff.mpr (by simpa using List.find?_eq_none.mp hfind)]
      rfl
    rw [h0]
    simp only [init_database, hfind, create_flow, rootCount]
    rw [List.filter_append]
    rw [List.filter_eq_nil_iff.mpr (by simpa using List.find?_eq_none.mp hfind)]
    simp [List.filter_cons]
  | some root =>
    have hpos : 1 ≤ rootCount db := by
      unfold rootCount
      have hp := List.find?_some hfind
      have hmem : root ∈ db.users.filter (fun u => u.username == "root") :=
        List.mem_filter.mpr ⟨List.mem_of_find?_eq_some hfind, hp⟩
      exact List.length_pos.mpr (List.ne_nil_of_mem hmem)
    have husers : (init_database db hexDigest now).users = db.users := by
      cases hemp : (db.flows.filter (fun f => f.user_id == root.id)).isEmpty with
      | true => simp only [init_database, hfind, hemp, if_true, create_flow]
      | false => simp only [init_database, hfind, hemp, Bool.false_eq_true, if_false]
    unfold rootCount
    rw [husers]
    have : max 1 (db.users.filter (fun u => u.username == "root")).length =
        (db.users.filter (fun u => u.username == "root")).length :=
      Nat.max_eq_right hpos
    rw [this]

/-- C2: bootstrap is idempotent — a second run over any once-bootstrapped
store leaves the user count and the flow count unchanged — and a run
never increases the number of users named "root" beyond one: afterwards
that number is max(1, its prior value), so from any store with at most
one root no sequence of runs ever produces more than one. -/
theorem bootstrap_idempotent (db : Store) (h1 h2 : List Char) (n1 n2 : Nat) :
    (init_database (init_database db h1 n1) h2 n2).users.length =
      (init_database db h1 n1).users.length ∧
    (init_database (init_database db h1 n1) h2 n2).flows.length =
      (init_database db h1 n1).flows.length ∧
    rootCount (init_database db h1 n1) = max 1 (rootCount db) ∧
    (rootCount db ≤ 1 → rootCount (init_database db h1 n1) ≤ 1) := by
  have hidem := init_database_idem db h1 h2 n1 n2
  have hmax := rootCount_init_database db h1 n1
  refine ⟨by rw [hidem], by rw [hidem], hmax, fun hle => ?_⟩
  rw [hmax]
  omega

/-- Witness for C2: bootstrapping the empty store twice — the user and
flow counts are stable across the second run and exactly one root
exists. -/
theorem bootstrap_idempotent_witness :
    (init_database (init_database wEmpty wHex 10) wHex2 20).users.length =
      (init_database wEmpty wHex 10).users.length ∧
    rootCount (init_database wEmpty wHex 10) ≤ 1 :=
  ⟨(bootstrap_idempotent wEmpty wHex wHex2 10 20).1,
   (bootstrap_idempotent wEmpty wHex wHex2 10 20).2.2.2 (by decide)⟩

end Krok
